import Mathlib

/-!
Verification development for the resume-analyzer repository.

Shallow embedding of the two specified subsystems:
* the document renderer `convertPdfToImage` (src/app/lib/pdf2img.ts),
  including the module-level engine loader `loadPdfJs` and the in-memory
  conversion cache;
* the pipeline orchestrator `handleAnalyze` (src/app/routes/upload.tsx);
* the backend adapter operations producing `ServiceResult` values
  (src/unnamed/part_000, Puter service implementations).

Effectful browser / network steps (dynamic import, `file.arrayBuffer`,
`getDocument`, `canvas.toBlob`, port calls, `JSON.parse` of the AI text,
timers) are modelled as oracle parameters carried by environment records:
each parameter records the outcome the corresponding awaited call would
produce.  Thrown JavaScript exceptions are modelled by the `.error` branch
of `Except String _` carrying the exception message.
-/

deriving instance DecidableEq for Except

namespace ResumeATS

/-- Substring occurrence on character lists: some suffix of the text has
the pattern as a prefix. -/
def containsSub (pat : List Char) : List Char → Bool
  | [] => pat.isEmpty
  | c :: rest => pat.isPrefixOf (c :: rest) || containsSub pat rest

/-- JavaScript `String.prototype.includes`, used as
`file.type.includes('pdf')`. -/
def strIncludes (s pat : String) : Bool :=
  containsSub pat.toList s.toList

/-- Whether the regex `/\.pdf$/i` matches: the name ends in ".pdf" up to
ASCII case. -/
def endsWithPdfCI (name : String) : Bool :=
  List.isSuffixOf ".pdf".toList (name.toList.map Char.toLower)

/-- The regex replace `name.replace(/\.pdf$/i, "")` from pdf2img.ts:
a trailing ".pdf", matched case-insensitively, is removed; any other
name is left unchanged. -/
def stripPdfExt (name : String) : String :=
  if endsWithPdfCI name then
    String.mk (name.toList.take (name.toList.length - 4))
  else name

/-- Name given to the converted image file: `` `${originalName}.png` ``. -/
def pngName (name : String) : String :=
  stripPdfExt name ++ ".png"

/-- The relevant observable fields of a browser `File` passed to
`convertPdfToImage`. -/
structure SrcFile where
  name : String
  size : Nat
  type : String
  lastModified : Nat
  deriving DecidableEq, Repr

/-- The `File` produced from the encoded blob (`new File([blob],
`` `${originalName}.png` ``, { type: "image/png" })`).  Blobs are
identified by an abstract numeric id. -/
structure ImageFile where
  name : String
  type : String
  blobId : Nat
  deriving DecidableEq, Repr

/-- `PdfConversionResult` from pdf2img.ts: `{ imageUrl: string; file: File |
null; error?: string }`. -/
structure PdfConversionResult where
  imageUrl : String
  file : Option ImageFile
  error : Option String
  deriving DecidableEq, Repr

/-- Outcome of `convertPdfToImage` as seen across its boundary: the
returned promise either fulfils with a `PdfConversionResult` or rejects
with an exception message. -/
inductive ConvOut where
  | ret (r : PdfConversionResult)
  | thrown (msg : String)
  deriving DecidableEq, Repr

/-- Cache key: `` `${file.name}-${file.lastModified}` ``. -/
def cacheKey (f : SrcFile) : String :=
  f.name ++ "-" ++ toString f.lastModified

/-- The module-level `pdfCache : Map<string, PdfConversionResult>`,
modelled as an association list; `set` prepends (lookup finds the newest
binding, matching `Map.set` / `Map.get`). -/
abbrev Cache := List (String × PdfConversionResult)

def cacheSet (k : String) (v : PdfConversionResult) (c : Cache) : Cache :=
  (k, v) :: c

/-- The module-level engine loader state of pdf2img.ts: `pdfjsLib` (null
or the loaded library, modelled as a Bool) and `loadPromise` (null, or a
settled promise whose outcome is recorded). -/
structure EngineState where
  pdfjsLib : Bool
  loadPromise : Option (Except String Unit)
  deriving DecidableEq, Repr

/-- The initial module state: `pdfjsLib = null`, `loadPromise = null`. -/
def engine0 : EngineState := { pdfjsLib := false, loadPromise := none }

/-- `loadPdfJs` from pdf2img.ts.  `importOut` is the outcome the dynamic
`import("pdfjs-dist/build/pdf.mjs")` chain (including worker-source setup)
would produce if a fresh import were started.  Returns the result handed
to the caller, the new module state, and the number of fresh import
attempts started (0 or 1).  A cached `loadPromise` — settled either way —
is returned as-is; the code never resets `loadPromise` to null. -/
def loadPdfJs (st : EngineState) (importOut : Except String Unit) :
    Except String Unit × EngineState × Nat :=
  if st.pdfjsLib then (Except.ok (), st, 0)
  else
    match st.loadPromise with
    | some p => (p, st, 0)
    | none =>
      match importOut with
      | Except.ok _ =>
        (Except.ok (), { pdfjsLib := true, loadPromise := some (Except.ok ()) }, 1)
      | Except.error e =>
        (Except.error e, { pdfjsLib := false, loadPromise := some (Except.error e) }, 1)

/-- Behaviour of the `canvas.toBlob(cb, "image/png", 0.8)` call: it may
throw synchronously, invoke the callback with a blob or with null, or
never invoke it (so the 30-second guard fires). -/
inductive ToBlobBehavior where
  | throwSync (msg : String)
  | callback (blob : Option Nat)
  | hang
  deriving DecidableEq, Repr

/-- Oracle outcomes for the effectful steps of one `convertPdfToImage`
call. -/
structure ConvEnv where
  /-- outcome a fresh `import("pdfjs-dist/build/pdf.mjs")` chain would produce -/
  importOut : Except String Unit
  /-- `await file.arrayBuffer()` -/
  arrayBufferOut : Except String Unit
  /-- `await lib.getDocument({data}).promise` -/
  getDocumentOut : Except String Unit
  /-- `await pdf.getPage(1)` -/
  getPageOut : Except String Unit
  /-- `canvas.getContext("2d")` non-null? -/
  hasContext : Bool
  /-- `await page.render({...}).promise` -/
  renderOut : Except String Unit
  /-- behaviour of the primary `canvas.toBlob` encode path -/
  toBlob : ToBlobBehavior
  /-- `new File([blob], ...)` on the primary path -/
  fileFromBlob : Except String Unit
  /-- the whole `toDataURL`-based fallback: blob id on success, exception otherwise -/
  dataUrlOut : Except String Nat
  deriving DecidableEq, Repr

/-- Instrumentation of one `convertPdfToImage` call: whether `loadPdfJs`
(and the rendering pipeline behind it) was invoked, how many fresh engine
imports were started, and whether the `toDataURL` fallback ran. -/
structure ConvTrace where
  engineInvoked : Bool
  imports : Nat
  fallbackTried : Bool
  deriving DecidableEq, Repr

def noConvTrace : ConvTrace :=
  { engineInvoked := false, imports := 0, fallbackTried := false }

/-- A failure `PdfConversionResult`: `{ imageUrl: "", file: null, error }`. -/
def errResult (e : String) : PdfConversionResult :=
  { imageUrl := "", file := none, error := some e }

/-- A success `PdfConversionResult`: object URL for the blob, plus the
PNG `File` named after the source document. -/
def successResult (f : SrcFile) (bid : Nat) : PdfConversionResult :=
  { imageUrl := "blob:" ++ toString bid
    file := some { name := pngName f.name, type := "image/png", blobId := bid }
    error := none }

/-- The `tryWithDataURL` fallback closure of pdf2img.ts: on success it
caches and resolves a success result; on exception it resolves an error
result (nothing is cached). -/
def tryWithDataURL (f : SrcFile) (env : ConvEnv) (cache : Cache) :
    PdfConversionResult × Cache :=
  match env.dataUrlOut with
  | Except.ok bid =>
    (successResult f bid, cacheSet (cacheKey f) (successResult f bid) cache)
  | Except.error m =>
    (errResult ("Failed to create image using toDataURL: " ++ m), cache)

/-- The encode step of pdf2img.ts (the `new Promise` body, lines
149–246): primary `toBlob` path with `tryWithDataURL` fallback, guarded
by a 30-second timer that rejects the promise.  Returns the settled
outcome, the cache after the step, and whether the fallback ran. -/
def encodeStep (f : SrcFile) (env : ConvEnv) (cache : Cache) :
    ConvOut × Cache × Bool :=
  match env.toBlob with
  | ToBlobBehavior.hang =>
    (ConvOut.thrown "Timed out while creating image blob", cache, false)
  | ToBlobBehavior.throwSync _ =>
    let rc := tryWithDataURL f env cache
    (ConvOut.ret rc.1, rc.2, true)
  | ToBlobBehavior.callback none =>
    let rc := tryWithDataURL f env cache
    (ConvOut.ret rc.1, rc.2, true)
  | ToBlobBehavior.callback (some bid) =>
    match env.fileFromBlob with
    | Except.ok _ =>
      (ConvOut.ret (successResult f bid),
        cacheSet (cacheKey f) (successResult f bid) cache, false)
    | Except.error _ =>
      let rc := tryWithDataURL f env cache
      (ConvOut.ret rc.1, rc.2, true)

/-- State shared across `convertPdfToImage` calls: the engine loader
state and the conversion cache. -/
structure ConvState where
  engine : EngineState
  cache : Cache
  deriving DecidableEq, Repr

/-- `convertPdfToImage` from src/app/lib/pdf2img.ts.  Guards (empty file,
non-PDF media type), cache lookup, engine load, document/page/render
steps — each failure caught by the outer `catch` and mapped to an error
result — then the encode step, whose promise is returned directly (so a
rejection there escapes the outer `try`). -/
def convertPdfToImage (f : SrcFile) (env : ConvEnv) (st : ConvState) :
    ConvOut × ConvState × ConvTrace :=
  if f.size = 0 then
    (ConvOut.ret (errResult "Invalid file provided for conversion"), st, noConvTrace)
  else if !(strIncludes f.type "pdf") then
    (ConvOut.ret (errResult "File is not a PDF"), st, noConvTrace)
  else
    match st.cache.lookup (cacheKey f) with
    | some r => (ConvOut.ret r, st, noConvTrace)
    | none =>
      let lp := loadPdfJs st.engine env.importOut
      let eng1 := lp.2.1
      let imps := lp.2.2
      let outer : String → ConvOut × ConvState × ConvTrace := fun m =>
        (ConvOut.ret (errResult ("Failed to convert PDF to image: " ++ m)),
          { engine := eng1, cache := st.cache },
          { engineInvoked := true, imports := imps, fallbackTried := false })
      match lp.1 with
      | Except.error e => outer e
      | Except.ok _ =>
        match env.arrayBufferOut with
        | Except.error e => outer e
        | Except.ok _ =>
          match env.getDocumentOut with
          | Except.error e => outer e
          | Except.ok _ =>
            match env.getPageOut with
            | Except.error e => outer e
            | Except.ok _ =>
              if !env.hasContext then
                outer "Failed to get canvas 2D context"
              else
                match env.renderOut with
                | Except.error e => outer ("Failed to render PDF: " ++ e)
                | Except.ok _ =>
                  let es := encodeStep f env st.cache
                  (es.1, { engine := eng1, cache := es.2.1 },
                    { engineInvoked := true, imports := imps, fallbackTried := es.2.2 })

/-! ### Pipeline orchestrator: `handleAnalyze` in src/app/routes/upload.tsx

The `~/lib/puter` store consumed by upload.tsx is not among the source
files; only the `ServiceResult`-returning Puter adapters are.  Modelled
from the spec: every port returns the `ServiceResult` contract; the store
surfaces an adapter `error` ServiceResult at upload.tsx's call sites
either as a falsy result (for the value-returning calls `fs.upload` and
`ai.feedback`, whose results upload.tsx tests for truthiness) or as a
thrown exception.  Accordingly a port outcome is a returned value, a
falsy result, or a thrown exception. -/

/-- Outcome of a port call as observed at the orchestrator's call site. -/
inductive PCall (α : Type) where
  | ret (v : α)
  | falsy
  | throw (msg : String)
  deriving DecidableEq, Repr

/-- The part of an uploaded `FileItem` the orchestrator uses. -/
structure FileItem where
  path : String
  deriving DecidableEq, Repr

/-- `feedback.message.content`: a plain string, or a sequence whose
first element carries the text (`content[0].text`). -/
inductive AIContent where
  | str (s : String)
  | arr (first : String)
  deriving DecidableEq, Repr

/-- The AI feedback response shape used by the orchestrator. -/
structure AIResponse where
  content : AIContent
  deriving DecidableEq, Repr

/-- `feedback.message.content` extraction (upload.tsx lines 133–135). -/
def extractText (r : AIResponse) : String :=
  match r.content with
  | AIContent.str s => s
  | AIContent.arr t => t

/-- A JSON value produced by `JSON.parse(feedbackText)`, at the
granularity the orchestrator uses it (it stores the parsed value opaquely
in the record's feedback field): a primitive value, or a composite
object/array identified by its serialized text. -/
inductive Json where
  | null
  | bool (b : Bool)
  | num (n : Int)
  | str (s : String)
  | composite (serialized : String)
  deriving DecidableEq, Repr

/-- The `data` record built in `handleAnalyze` and serialized into the
Key-Value store (`JSON.stringify` applied at the boundary). -/
structure AnalysisData where
  id : String
  resumePath : String
  imagePath : String
  companyName : String
  jobTitle : String
  jobDescription : String
  feedback : Json
  deriving DecidableEq, Repr

/-- Oracle outcomes for the awaited calls of one `handleAnalyze` run. -/
structure RunEnv where
  /-- `await fs.upload([file])` -/
  upload1 : PCall FileItem
  /-- `await convertPdfToImage(file)`: fulfilled result or rejection -/
  convertOut : Except String PdfConversionResult
  /-- `await fs.upload([imageFile.file])` -/
  upload2 : PCall FileItem
  /-- `generateUUID()` (from `~/lib/utils`, not in the source tree) -/
  uuid : String
  /-- `await kv.set(..., initial record)`: the value is ignored by the code,
  only a thrown exception is observable -/
  kvSet1 : Except String Unit
  /-- `await ai.feedback(path, instructions)` -/
  aiFeedback : PCall AIResponse
  /-- `JSON.parse(feedbackText)` -/
  parseOut : Except String Json
  /-- `await kv.set(..., final record)` -/
  kvSet2 : Except String Unit
  /-- `navigate(...)` -/
  navigateOut : Except String Unit
  deriving DecidableEq, Repr

/-- The job-context form input of one run. -/
structure RunInput where
  companyName : String
  jobTitle : String
  jobDescription : String
  deriving DecidableEq, Repr

/-- Observable events of a run, in program order. -/
inductive Ev where
  | setProcessing (b : Bool)
  | status (s : String)
  | callUpload
  | callConvert
  | genUUID (u : String)
  | callKvSet (key : String) (rec : AnalysisData)
  | callAiFeedback (path : String)
  | clearTimer
  | navigate (path : String)
  deriving DecidableEq, Repr

/-- The pipeline stages of the spec's state machine, used to attribute
the early return that produced a failure. -/
inductive Stage where
  | uploading
  | converting
  | uploadingImage
  | persistingInitial
  | analyzing
  | parsingFeedback
  | persistingFinal
  deriving DecidableEq, Repr

/-- Terminal outcome of a run: completed, failed at a stage via an
`Error:` status and early return, or aborted by an uncaught exception. -/
inductive RunOutcome where
  | done (uuid : String)
  | failed (stage : Stage) (msg : String)
  | thrown (msg : String)
  deriving DecidableEq, Repr

/-- A run: its ordered event trace and terminal outcome. -/
structure RunResult where
  events : List Ev
  outcome : RunOutcome
  deriving DecidableEq, Repr

/-- `handleAnalyze` from src/app/routes/upload.tsx, as the sequence of
observable events it performs together with its terminal outcome.  The
5-minute global timer is armed at the start; `Ev.clearTimer` marks each
`clearTimeout(globalTimeoutId)` (its firing is modelled separately by
`firedTrace`). -/
def handleAnalyze (inp : RunInput) (env : RunEnv) : RunResult :=
  let pre := [Ev.setProcessing true, Ev.status "Uploading the file...", Ev.callUpload]
  match env.upload1 with
  | PCall.throw m => { events := pre, outcome := RunOutcome.thrown m }
  | PCall.falsy =>
    { events := pre ++ [Ev.clearTimer, Ev.status "Error: Failed to upload file"]
      outcome := RunOutcome.failed Stage.uploading "Failed to upload file" }
  | PCall.ret f1 =>
    let pre := pre ++ [Ev.status "Converting to image...", Ev.callConvert]
    match env.convertOut with
    | Except.error m =>
      { events := pre ++ [Ev.clearTimer, Ev.status ("Error: " ++ m)]
        outcome := RunOutcome.failed Stage.converting m }
    | Except.ok conv =>
      match conv.file with
      | none =>
        let m := conv.error.getD "Failed to convert PDF to image"
        { events := pre ++ [Ev.clearTimer, Ev.status ("Error: " ++ m)]
          outcome := RunOutcome.failed Stage.converting m }
      | some _ =>
        let pre := pre ++ [Ev.status "Uploading the image...", Ev.callUpload]
        match env.upload2 with
        | PCall.throw m => { events := pre, outcome := RunOutcome.thrown m }
        | PCall.falsy =>
          { events := pre ++ [Ev.clearTimer, Ev.status "Error: Failed to upload image"]
            outcome := RunOutcome.failed Stage.uploadingImage "Failed to upload image" }
        | PCall.ret f2 =>
          let data0 : AnalysisData :=
            { id := env.uuid, resumePath := f1.path, imagePath := f2.path
              companyName := inp.companyName, jobTitle := inp.jobTitle
              jobDescription := inp.jobDescription, feedback := Json.str "" }
          let key := "resume:" ++ env.uuid
          let pre := pre ++ [Ev.status "Preparing data...", Ev.genUUID env.uuid,
            Ev.callKvSet key data0]
          match env.kvSet1 with
          | Except.error m =>
            { events := pre ++ [Ev.clearTimer,
                Ev.status ("Error: Failed to store data. " ++ m)]
              outcome := RunOutcome.failed Stage.persistingInitial m }
          | Except.ok _ =>
            let pre := pre ++ [Ev.status "Analyzing...", Ev.callAiFeedback f1.path]
            match env.aiFeedback with
            | PCall.throw m =>
              { events := pre ++ [Ev.clearTimer,
                  Ev.status ("Error: Failed to analyze resume. " ++ m)]
                outcome := RunOutcome.failed Stage.analyzing m }
            | PCall.falsy =>
              { events := pre ++ [Ev.clearTimer,
                  Ev.status "Error: Failed to analyze resume"]
                outcome := RunOutcome.failed Stage.analyzing "Failed to analyze resume" }
            | PCall.ret _resp =>
              match env.parseOut with
              | Except.error m =>
                { events := pre ++ [Ev.clearTimer,
                    Ev.status ("Error: Failed to parse feedback. " ++ m)]
                  outcome := RunOutcome.failed Stage.parsingFeedback m }
              | Except.ok j =>
                let data1 := { data0 with feedback := j }
                let pre := pre ++ [Ev.callKvSet key data1]
                match env.kvSet2 with
                | Except.error m =>
                  { events := pre ++ [Ev.clearTimer,
                      Ev.status ("Error: Failed to store feedback. " ++ m)]
                    outcome := RunOutcome.failed Stage.persistingFinal m }
                | Except.ok _ =>
                  let pre := pre ++ [Ev.clearTimer,
                    Ev.status "Analysis complete, redirecting...",
                    Ev.navigate ("/resume/" ++ env.uuid)]
                  match env.navigateOut with
                  | Except.error m =>
                    { events := pre ++
                        [Ev.status ("Error: Failed to navigate to results page. " ++ m)]
                      outcome := RunOutcome.done env.uuid }
                  | Except.ok _ =>
                    { events := pre, outcome := RunOutcome.done env.uuid }

/-- Backend port calls (Blob Storage, Key-Value, AI Inference); the
renderer call is not a port. -/
def isPortEv : Ev → Bool
  | Ev.callUpload => true
  | Ev.callKvSet _ _ => true
  | Ev.callAiFeedback _ => true
  | _ => false

/-- The Key-Value writes of a run: `(key, record)` pairs in order. -/
def kvWrites (r : RunResult) : List (String × AnalysisData) :=
  r.events.filterMap fun e =>
    match e with
    | Ev.callKvSet k rec => some (k, rec)
    | _ => none

/-- The identifier-generation events of a run. -/
def genEvents (r : RunResult) : List String :=
  r.events.filterMap fun e =>
    match e with
    | Ev.genUUID u => some u
    | _ => none

/-! ### The global 5-minute timer and the component UI state

`handleAnalyze` arms `globalTimeoutId` whose handler runs
`setStatusText('Error: The operation timed out after 5 minutes. Please
try again.')` and `setIsProcessing(false)`.  The handler runs only if the
timer has not been cleared first.  `firedTrace r k` is the UI-event
sequence when the deadline expires after the first `k` events of the run:
if a `clearTimer` occurs among them the timer never fires; otherwise the
two handler events are interleaved at that point and the remaining run
events still follow (the async function is not cancelled). -/

/-- UI-state mutations: `setStatusText`, `setIsProcessing`, navigation. -/
inductive UiEv where
  | statusSet (s : String)
  | processingSet (b : Bool)
  | navTo (p : String)
  deriving DecidableEq, Repr

/-- Project a run event to its UI-state mutation, if any. -/
def uiProj : Ev → Option UiEv
  | Ev.status s => some (UiEv.statusSet s)
  | Ev.setProcessing b => some (UiEv.processingSet b)
  | Ev.navigate p => some (UiEv.navTo p)
  | _ => none

/-- The status text set by the global-timeout handler. -/
def timeoutMsg : String :=
  "Error: The operation timed out after 5 minutes. Please try again."

/-- Whether the global timer still fires when the deadline falls after
the first `k` run events. -/
def timerFires (r : RunResult) (k : Nat) : Bool :=
  !(r.events.take k).contains Ev.clearTimer

/-- UI-event sequence of the run when the global deadline expires after
the first `k` run events. -/
def firedTrace (r : RunResult) (k : Nat) : List UiEv :=
  if timerFires r k then
    (r.events.take k).filterMap uiProj
      ++ [UiEv.statusSet timeoutMsg, UiEv.processingSet false]
      ++ (r.events.drop k).filterMap uiProj
  else
    r.events.filterMap uiProj

/-- The component state touched by the run. -/
structure UiState where
  statusText : String
  isProcessing : Bool
  deriving DecidableEq, Repr

def uiStep (st : UiState) : UiEv → UiState
  | UiEv.statusSet s => { st with statusText := s }
  | UiEv.processingSet b => { st with isProcessing := b }
  | UiEv.navTo _ => st

/-- Fold a UI-event sequence from the component's initial state
(`statusText = ''`, `isProcessing = false`). -/
def uiFold (l : List UiEv) : UiState :=
  l.foldl uiStep { statusText := "", isProcessing := false }

/-- The text of the last `statusSet` event of a UI-event sequence. -/
def lastStatus : List UiEv → Option String
  | [] => none
  | e :: rest =>
    match lastStatus rest with
    | some s => some s
    | none =>
      match e with
      | UiEv.statusSet s => some s
      | _ => none

/-! ### ServiceResult and the Puter backend adapters (src/unnamed/part_000)

`ServiceResult<T>` is `{ data?: T; error?: string }`; both fields are
optional at the type level.  Each adapter operation takes a Bool saying
whether `window.puter` is available, plus oracle outcomes for its awaited
underlying calls (`Except.error m` models a thrown exception with message
`m`; the `err instanceof Error ? err.message : "..."` fallbacks all yield
some string, absorbed into `m`).  The per-operation timeout races
(upload, kv get/set, ai feedback) settle the same `Except` oracle: a
timeout rejection is an `Except.error` with the timeout message. -/

/-- `ServiceResult<T>` with its two optional fields. -/
structure ServiceResult (α : Type) where
  data : Option α := none
  error : Option String := none
  deriving DecidableEq, Repr

/-- Exactly one of the two branches is populated. -/
def oneBranch {α : Type} (r : ServiceResult α) : Prop :=
  (r.data.isSome ∧ r.error = none) ∨ (r.data = none ∧ r.error.isSome)

/-- JavaScript `a || b` on an optional string field (empty string is
falsy). -/
def jsOr (v : Option String) (d : String) : String :=
  match v with
  | some s => if s = "" then d else s
  | none => d

/-- The raw item returned by `puter.fs` operations, with the optional
fields the adapters read. -/
structure RawFSItem where
  id : Option String
  uuid : Option String
  name : Option String
  path : Option String
  url : Option String
  size : Option Nat
  type : Option String
  deriving DecidableEq, Repr

/-- The mapped `FileItem` built by the adapters. -/
structure MappedFileItem where
  id : String
  name : String
  path : String
  url : String
  size : Option Nat
  type : Option String
  deriving DecidableEq, Repr

/-- Field mapping `{ id: result.id || result.uuid || "", ... }`. -/
def mkFileItem (raw : RawFSItem) : MappedFileItem :=
  { id := jsOr raw.id (jsOr raw.uuid "")
    name := jsOr raw.name ""
    path := jsOr raw.path ""
    url := jsOr raw.url ""
    size := raw.size
    type := raw.type }

/-- The raw user returned by `puter.auth.getUser()`. -/
structure RawUser where
  id : Option String
  uuid : Option String
  name : Option String
  username : Option String
  email : Option String
  deriving DecidableEq, Repr

/-- `AuthUser` as mapped by the adapter. -/
structure AuthUser where
  id : String
  name : String
  email : String
  deriving DecidableEq, Repr

def mkAuthUser (u : RawUser) : AuthUser :=
  { id := jsOr u.id (jsOr u.uuid "")
    name := jsOr u.name (jsOr u.username "")
    email := jsOr u.email "" }

def unavailable {α : Type} : ServiceResult α :=
  { error := some "Puter.js not available" }

/-- `PuterAuthService.getUser`. -/
def authGetUser (avail : Bool) (out : Except String RawUser) : ServiceResult AuthUser :=
  if !avail then unavailable
  else
    match out with
    | Except.ok u => { data := some (mkAuthUser u) }
    | Except.error m => { error := some m }

/-- `PuterAuthService.signIn`. -/
def authSignIn (avail : Bool) (out : Except String Unit) : ServiceResult Unit :=
  if !avail then unavailable
  else
    match out with
    | Except.ok _ => { data := some () }
    | Except.error m => { error := some m }

/-- `PuterAuthService.signOut`. -/
def authSignOut (avail : Bool) (out : Except String Unit) : ServiceResult Unit :=
  if !avail then unavailable
  else
    match out with
    | Except.ok _ => { data := some () }
    | Except.error m => { error := some m }

/-- `PuterFileStorageService.upload` (the 60-second timeout race settles
the same oracle). -/
def fsUpload (avail : Bool) (out : Except String RawFSItem) : ServiceResult MappedFileItem :=
  if !avail then unavailable
  else
    match out with
    | Except.ok raw => { data := some (mkFileItem raw) }
    | Except.error m => { error := some m }

/-- `PuterFileStorageService.read`; blobs are abstract numeric ids. -/
def fsRead (avail : Bool) (out : Except String Nat) : ServiceResult Nat :=
  if !avail then unavailable
  else
    match out with
    | Except.ok b => { data := some b }
    | Except.error m => { error := some m }

/-- `PuterFileStorageService.write`; a falsy underlying result maps to
the "Write operation returned no result" error. -/
def fsWrite (avail : Bool) (out : Except String (Option RawFSItem)) :
    ServiceResult MappedFileItem :=
  if !avail then unavailable
  else
    match out with
    | Except.ok none => { error := some "Write operation returned no result" }
    | Except.ok (some raw) => { data := some (mkFileItem raw) }
    | Except.error m => { error := some m }

/-- `PuterFileStorageService.delete`. -/
def fsDelete (avail : Bool) (out : Except String Unit) : ServiceResult Unit :=
  if !avail then unavailable
  else
    match out with
    | Except.ok _ => { data := some () }
    | Except.error m => { error := some m }

/-- `PuterFileStorageService.list`; a falsy `readdir` result maps to
`{ data: [] }`. -/
def fsList (avail : Bool) (out : Except String (Option (List RawFSItem))) :
    ServiceResult (List MappedFileItem) :=
  if !avail then unavailable
  else
    match out with
    | Except.ok none => { data := some [] }
    | Except.ok (some items) => { data := some (items.map mkFileItem) }
    | Except.error m => { error := some m }

/-- `PuterKVService.get` (30-second timeout race); the stored value may
be null. -/
def kvGet (avail : Bool) (out : Except String (Option String)) :
    ServiceResult (Option String) :=
  if !avail then unavailable
  else
    match out with
    | Except.ok v => { data := some v }
    | Except.error m => { error := some m }

/-- `PuterKVService.set` (60-second timeout race). -/
def kvSet (avail : Bool) (out : Except String Bool) : ServiceResult Bool :=
  if !avail then unavailable
  else
    match out with
    | Except.ok b => { data := some b }
    | Except.error m => { error := some m }

/-- `PuterKVService.delete`. -/
def kvDelete (avail : Bool) (out : Except String Bool) : ServiceResult Bool :=
  if !avail then unavailable
  else
    match out with
    | Except.ok b => { data := some b }
    | Except.error m => { error := some m }

/-- `PuterKVService.list`. -/
def kvList (avail : Bool) (out : Except String (List String)) :
    ServiceResult (List String) :=
  if !avail then unavailable
  else
    match out with
    | Except.ok xs => { data := some xs }
    | Except.error m => { error := some m }

/-- `PuterKVService.flush`. -/
def kvFlush (avail : Bool) (out : Except String Bool) : ServiceResult Bool :=
  if !avail then unavailable
  else
    match out with
    | Except.ok b => { data := some b }
    | Except.error m => { error := some m }

/-- `PuterAIService.chat`. -/
def aiChat (avail : Bool) (out : Except String AIResponse) : ServiceResult AIResponse :=
  if !avail then unavailable
  else
    match out with
    | Except.ok r => { data := some r }
    | Except.error m => { error := some m }

/-- `PuterAIService.uploadFileForAI` (private helper). -/
def uploadFileForAI (avail : Bool) (out : Except String String) : ServiceResult String :=
  if !avail then unavailable
  else
    match out with
    | Except.ok p => { data := some p }
    | Except.error m => { error := some m }

/-- `PuterAIService.feedback`.  `fileArg` is either a path string
(`Sum.inl`) or a `File` object (`Sum.inr`, uploaded first via
`uploadFileForAI`, whose resulting `error` field is tested with JS
truthiness — an empty-string error passes the check).  `chatOut` is the
`puter.ai.chat` call raced against the 120-second timeout. -/
def aiFeedback (avail : Bool) (fileArg : String ⊕ Unit)
    (uploadOut : Except String String) (chatOut : Except String AIResponse) :
    ServiceResult AIResponse :=
  if !avail then unavailable
  else
    let chatBranch : ServiceResult AIResponse :=
      match chatOut with
      | Except.ok r => { data := some r }
      | Except.error m => { error := some m }
    match fileArg with
    | Sum.inl _ => chatBranch
    | Sum.inr _ =>
      let up := uploadFileForAI avail uploadOut
      match up.error with
      | some e => if e = "" then chatBranch else { error := some e }
      | none => chatBranch

/-- `PuterAIService.img2txt`. -/
def aiImg2txt (avail : Bool) (out : Except String String) : ServiceResult String :=
  if !avail then unavailable
  else
    match out with
    | Except.ok s => { data := some s }
    | Except.error m => { error := some m }

/-! ### Derived notions and concrete inputs used by the theorems -/

/-- Every cached conversion result is a success (only the success paths
call `pdfCache.set`). -/
def wfCache (c : Cache) : Bool :=
  c.all fun p => p.2.file.isSome && p.2.error == none

/-- The primary `toBlob` encode path fails: it throws synchronously,
yields a null blob, or the `File` construction from its blob throws. -/
def primaryEncodeFails (env : ConvEnv) : Prop :=
  (∃ m, env.toBlob = ToBlobBehavior.throwSync m) ∨
  env.toBlob = ToBlobBehavior.callback none ∨
  (∃ bid m, env.toBlob = ToBlobBehavior.callback (some bid) ∧
    env.fileFromBlob = Except.error m)

/-- Module state after the first `loadPdfJs` call whose import chain
settled with outcome `o`: on success `pdfjsLib` is set; either way
`loadPromise` holds the settled promise (never reset to null). -/
def settledState : Except String Unit → EngineState
  | Except.ok _ => { pdfjsLib := true, loadPromise := some (Except.ok ()) }
  | Except.error e => { pdfjsLib := false, loadPromise := some (Except.error e) }

/-- Sequential `loadPdfJs` calls: results received by each caller, final
module state, and the total number of fresh import attempts. -/
def loadSeq (st : EngineState) :
    List (Except String Unit) → List (Except String Unit) × EngineState × Nat
  | [] => ([], st, 0)
  | o :: os =>
    let c := loadPdfJs st o
    let rest := loadSeq c.2.1 os
    (c.1 :: rest.1, rest.2.1, c.2.2 + rest.2.2)

/-- Classify a run event as a backend port call (the renderer call is
not a port). -/
def portKind : Ev → Option String
  | Ev.callUpload => some "fs.upload"
  | Ev.callKvSet _ _ => some "kv.set"
  | Ev.callAiFeedback _ => some "ai.feedback"
  | _ => none

/-- The backend port calls a run makes, in order. -/
def portTrace (r : RunResult) : List String :=
  r.events.filterMap portKind

/-- Identifier-generation events. -/
def isGenEv : Ev → Bool
  | Ev.genUUID _ => true
  | _ => false

/-- Whether a run outcome is a stage-attributed failure report. -/
def isFailedOutcome : RunOutcome → Bool
  | RunOutcome.failed _ _ => true
  | _ => false

/-- A concrete valid PDF input document. -/
def cFile : SrcFile :=
  { name := "resume.pdf", size := 100, type := "application/pdf", lastModified := 5 }

/-- A concrete non-PDF input document. -/
def cFileTxt : SrcFile :=
  { name := "resume.txt", size := 100, type := "text/plain", lastModified := 5 }

/-- A conversion environment whose encode callback never fires, so the
30-second guard expires. -/
def cEnvHang : ConvEnv :=
  { importOut := Except.ok (), arrayBufferOut := Except.ok ()
    getDocumentOut := Except.ok (), getPageOut := Except.ok ()
    hasContext := true, renderOut := Except.ok ()
    toBlob := ToBlobBehavior.hang, fileFromBlob := Except.ok ()
    dataUrlOut := Except.ok 7 }

/-- A conversion environment whose primary encode path succeeds with
blob 3. -/
def cEnvPrimaryOk : ConvEnv :=
  { cEnvHang with toBlob := ToBlobBehavior.callback (some 3) }

/-- A conversion environment whose primary path yields a null blob and
whose fallback succeeds with blob 9. -/
def cEnvFallback : ConvEnv :=
  { cEnvHang with toBlob := ToBlobBehavior.callback none, dataUrlOut := Except.ok 9 }

/-- Fresh shared state: unloaded engine, empty cache. -/
def st0 : ConvState := { engine := engine0, cache := [] }

/-- Shared state with the engine already loaded. -/
def stLoaded : ConvState :=
  { engine := { pdfjsLib := true, loadPromise := some (Except.ok ()) }, cache := [] }

/-- Shared state whose engine initialization failed earlier; the failed
promise is cached in `loadPromise`. -/
def stFailedEngine : ConvState :=
  { engine := settledState (Except.error "init failed"), cache := [] }

/-- A concrete job-context input. -/
def cInput : RunInput :=
  { companyName := "Acme", jobTitle := "Engineer", jobDescription := "Build rockets" }

/-- A concrete successful renderer result. -/
def cConvOk : PdfConversionResult :=
  { imageUrl := "blob:1"
    file := some { name := "resume.png", type := "image/png", blobId := 1 }
    error := none }

/-- A run environment in which every awaited call succeeds. -/
def cEnvOk : RunEnv :=
  { upload1 := PCall.ret { path := "/files/resume.pdf" }
    convertOut := Except.ok cConvOk
    upload2 := PCall.ret { path := "/files/resume.png" }
    uuid := "uuid-1"
    kvSet1 := Except.ok ()
    aiFeedback := PCall.ret { content := AIContent.str "raw feedback" }
    parseOut := Except.ok (Json.composite "parsed feedback")
    kvSet2 := Except.ok ()
    navigateOut := Except.ok () }

/-- `cEnvOk` with the first blob upload throwing. -/
def cEnvUploadThrow : RunEnv := { cEnvOk with upload1 := PCall.throw "network down" }

/-- `cEnvOk` with the first Key-Value `set` throwing. -/
def cEnvKvFail : RunEnv := { cEnvOk with kvSet1 := Except.error "kv down" }



/-! ### Supporting lemmas -/

theorem cache_lookup_mem : ∀ (c : Cache) (k : String) (r : PdfConversionResult),
    c.lookup k = some r → (k, r) ∈ c := by
  intro c
  induction c with
  | nil => intro k r h; simp [List.lookup] at h
  | cons p t ih =>
    intro k r h
    rw [show p = (p.1, p.2) from rfl, List.lookup_cons] at h
    by_cases hk : k = p.1
    · subst hk
      simp at h
      subst h
      exact List.mem_cons_self _ _
    · have : (k == p.1) = false := by simp [hk]
      rw [this] at h
      exact List.mem_cons_of_mem _ (ih k r h)

theorem append_ne_empty_left (p m : String) (hp : p.length ≠ 0) : p ++ m ≠ "" := by
  intro h
  have hl := congrArg String.length h
  rw [String.length_append] at hl
  simp at hl
  omega

/-- A successful conversion leaves its result in the cache under the
document fingerprint. -/
theorem convert_success_cached (f : SrcFile) (env : ConvEnv) (st : ConvState)
    (r : PdfConversionResult)
    (hret : (convertPdfToImage f env st).1 = ConvOut.ret r)
    (hsucc : r.file.isSome = true) :
    ((convertPdfToImage f env st).2.1).cache.lookup (cacheKey f) = some r := by
  unfold convertPdfToImage encodeStep tryWithDataURL at hret
  dsimp only at hret
  repeat' split at hret
  all_goals try exact ConvOut.noConfusion hret
  all_goals try simp only [ConvOut.ret.injEq] at hret
  all_goals try subst hret
  all_goals unfold convertPdfToImage encodeStep tryWithDataURL
  all_goals try simp only [*]
  all_goals simp_all [errResult, successResult, cacheSet]

/-- The first `loadPdfJs` call starts the single import and leaves the
settled promise in the module state. -/
theorem loadPdfJs_first (o : Except String Unit) :
    loadPdfJs engine0 o = (o, settledState o, 1) := by
  cases o <;> rfl

/-- Once the module state holds a settled promise, every further call
returns that promise's outcome, starts no import, and leaves the state
unchanged. -/
theorem loadPdfJs_settled (o o2 : Except String Unit) :
    loadPdfJs (settledState o) o2 = (o, settledState o, 0) := by
  cases o <;> rfl

theorem loadSeq_settled (o : Except String Unit) (os : List (Except String Unit)) :
    loadSeq (settledState o) os = (os.map fun _ => o, settledState o, 0) := by
  induction os with
  | nil => rfl
  | cons o2 os ih => simp [loadSeq, loadPdfJs_settled, ih]

theorem lastStatus_append (xs ys : List UiEv) :
    lastStatus (xs ++ ys) =
      match lastStatus ys with
      | some s => some s
      | none => lastStatus xs := by
  induction xs with
  | nil => cases hl : lastStatus ys <;> simp [lastStatus, hl]
  | cons e rest ih =>
    simp only [List.cons_append, lastStatus, List.append_eq]
    rw [ih]
    cases hy : lastStatus ys <;> cases hr2 : lastStatus rest <;> simp

theorem uiFoldAux_statusText (l : List UiEv) :
    ∀ init : UiState,
      (l.foldl uiStep init).statusText = (lastStatus l).getD init.statusText := by
  induction l with
  | nil => intro init; simp [lastStatus]
  | cons e rest ih =>
    intro init
    rw [List.foldl_cons, ih]
    cases hl : lastStatus rest <;> cases e <;> simp [lastStatus, hl, uiStep]

/-- The status text after a UI-event sequence is the last status set (or
the initial empty text). -/
theorem uiFold_statusText (l : List UiEv) :
    (uiFold l).statusText = (lastStatus l).getD "" := by
  exact uiFoldAux_statusText l _

/-! ### Claims -/

/-- C1 counterexample: the claim requires that a port call that throws
terminates the run in `Failed` at that stage.  With every other call
succeeding, a thrown exception from the first `fs.upload` — which
upload.tsx does not wrap in try/catch — ends the run as an uncaught
rejection with no `Failed(stage)` report (no downstream port call is
made, but the Failed part of the claim is false). -/
theorem claim_C1_counterexample :
    (handleAnalyze cInput cEnvUploadThrow).outcome = RunOutcome.thrown "network down" ∧
    isFailedOutcome (handleAnalyze cInput cEnvUploadThrow).outcome = false ∧
    portTrace (handleAnalyze cInput cEnvUploadThrow) = ["fs.upload"] := by
  decide

/-- C1 (amended): an error-signalling (falsy) port result at any stage,
and a thrown exception from the convert, KV-set or AI-feedback calls,
terminate the run in `Failed` at that stage with no further port calls
downstream; a thrown exception from either blob-upload call instead
propagates out of the handler uncaught — the run aborts without a
`Failed` report, still making no downstream port calls. -/
theorem claim_C1_amended_stage_failure (inp : RunInput) (env : RunEnv) :
    (env.upload1 = PCall.falsy →
      (handleAnalyze inp env).outcome =
        RunOutcome.failed Stage.uploading "Failed to upload file" ∧
      portTrace (handleAnalyze inp env) = ["fs.upload"]) ∧
    (∀ m, env.upload1 = PCall.throw m →
      (handleAnalyze inp env).outcome = RunOutcome.thrown m ∧
      portTrace (handleAnalyze inp env) = ["fs.upload"]) ∧
    (∀ f1 m, env.upload1 = PCall.ret f1 → env.convertOut = Except.error m →
      (handleAnalyze inp env).outcome = RunOutcome.failed Stage.converting m ∧
      portTrace (handleAnalyze inp env) = ["fs.upload"]) ∧
    (∀ f1 conv, env.upload1 = PCall.ret f1 → env.convertOut = Except.ok conv →
      conv.file = none →
      (handleAnalyze inp env).outcome =
        RunOutcome.failed Stage.converting (conv.error.getD "Failed to convert PDF to image") ∧
      portTrace (handleAnalyze inp env) = ["fs.upload"]) ∧
    (∀ f1 conv imgf, env.upload1 = PCall.ret f1 → env.convertOut = Except.ok conv →
      conv.file = some imgf → env.upload2 = PCall.falsy →
      (handleAnalyze inp env).outcome =
        RunOutcome.failed Stage.uploadingImage "Failed to upload image" ∧
      portTrace (handleAnalyze inp env) = ["fs.upload", "fs.upload"]) ∧
    (∀ f1 conv imgf m, env.upload1 = PCall.ret f1 → env.convertOut = Except.ok conv →
      conv.file = some imgf → env.upload2 = PCall.throw m →
      (handleAnalyze inp env).outcome = RunOutcome.thrown m ∧
      portTrace (handleAnalyze inp env) = ["fs.upload", "fs.upload"]) ∧
    (∀ f1 conv imgf f2 m, env.upload1 = PCall.ret f1 → env.convertOut = Except.ok conv →
      conv.file = some imgf → env.upload2 = PCall.ret f2 →
      env.kvSet1 = Except.error m →
      (handleAnalyze inp env).outcome = RunOutcome.failed Stage.persistingInitial m ∧
      portTrace (handleAnalyze inp env) = ["fs.upload", "fs.upload", "kv.set"]) ∧
    (∀ f1 conv imgf f2, env.upload1 = PCall.ret f1 → env.convertOut = Except.ok conv →
      conv.file = some imgf → env.upload2 = PCall.ret f2 →
      env.kvSet1 = Except.ok () → env.aiFeedback = PCall.falsy →
      (handleAnalyze inp env).outcome =
        RunOutcome.failed Stage.analyzing "Failed to analyze resume" ∧
      portTrace (handleAnalyze inp env) =
        ["fs.upload", "fs.upload", "kv.set", "ai.feedback"]) ∧
    (∀ f1 conv imgf f2 m, env.upload1 = PCall.ret f1 → env.convertOut = Except.ok conv →
      conv.file = some imgf → env.upload2 = PCall.ret f2 →
      env.kvSet1 = Except.ok () → env.aiFeedback = PCall.throw m →
      (handleAnalyze inp env).outcome = RunOutcome.failed Stage.analyzing m ∧
      portTrace (handleAnalyze inp env) =
        ["fs.upload", "fs.upload", "kv.set", "ai.feedback"]) ∧
    (∀ f1 conv imgf f2 resp m, env.upload1 = PCall.ret f1 → env.convertOut = Except.ok conv →
      conv.file = some imgf → env.upload2 = PCall.ret f2 →
      env.kvSet1 = Except.ok () → env.aiFeedback = PCall.ret resp →
      env.parseOut = Except.error m →
      (handleAnalyze inp env).outcome = RunOutcome.failed Stage.parsingFeedback m ∧
      portTrace (handleAnalyze inp env) =
        ["fs.upload", "fs.upload", "kv.set", "ai.feedback"]) ∧
    (∀ f1 conv imgf f2 resp j m, env.upload1 = PCall.ret f1 → env.convertOut = Except.ok conv →
      conv.file = some imgf → env.upload2 = PCall.ret f2 →
      env.kvSet1 = Except.ok () → env.aiFeedback = PCall.ret resp →
      env.parseOut = Except.ok j → env.kvSet2 = Except.error m →
      (handleAnalyze inp env).outcome = RunOutcome.failed Stage.persistingFinal m ∧
      portTrace (handleAnalyze inp env) =
        ["fs.upload", "fs.upload", "kv.set", "ai.feedback", "kv.set"]) := by
  refine ⟨?_, ?_, ?_, ?_, ?_, ?_, ?_, ?_, ?_, ?_, ?_⟩ <;>
    intros <;> constructor <;>
    simp_all [handleAnalyze, portTrace, portKind]

/-- C1 witness: a run whose first Key-Value `set` throws fails at the
initial-persist stage after exactly the two uploads and the one KV call. -/
theorem claim_C1_witness :
    (handleAnalyze cInput cEnvKvFail).outcome =
      RunOutcome.failed Stage.persistingInitial "kv down" ∧
    portTrace (handleAnalyze cInput cEnvKvFail) = ["fs.upload", "fs.upload", "kv.set"] :=
  (claim_C1_amended_stage_failure cInput cEnvKvFail).2.2.2.2.2.2.1
    { path := "/files/resume.pdf" } cConvOk
    { name := "resume.png", type := "image/png", blobId := 1 }
    { path := "/files/resume.png" } "kv down" rfl rfl rfl rfl rfl

/-- C2: on a run in which every awaited call succeeds and the parsed
feedback is not the empty string, the orchestrator performs exactly two
Key-Value `set` calls, both with key `resume:<identifier>`: the first
stores the record with empty feedback, the second the same record with
the non-empty parsed feedback; the run terminates in `Done` with that
identifier. -/
theorem claim_C2_double_write (inp : RunInput) (env : RunEnv) (f1 f2 : FileItem)
    (conv : PdfConversionResult) (imgf : ImageFile) (resp : AIResponse) (j : Json)
    (h1 : env.upload1 = PCall.ret f1) (h2 : env.convertOut = Except.ok conv)
    (h3 : conv.file = some imgf) (h4 : env.upload2 = PCall.ret f2)
    (h5 : env.kvSet1 = Except.ok ()) (h6 : env.aiFeedback = PCall.ret resp)
    (h7 : env.parseOut = Except.ok j) (hj : j ≠ Json.str "")
    (h8 : env.kvSet2 = Except.ok ()) :
    kvWrites (handleAnalyze inp env) =
      [("resume:" ++ env.uuid,
        { id := env.uuid, resumePath := f1.path, imagePath := f2.path
          companyName := inp.companyName, jobTitle := inp.jobTitle
          jobDescription := inp.jobDescription, feedback := Json.str "" }),
       ("resume:" ++ env.uuid,
        { id := env.uuid, resumePath := f1.path, imagePath := f2.path
          companyName := inp.companyName, jobTitle := inp.jobTitle
          jobDescription := inp.jobDescription, feedback := j })] ∧
    j ≠ Json.str "" ∧
    (handleAnalyze inp env).outcome = RunOutcome.done env.uuid := by
  refine ⟨?_, hj, ?_⟩ <;> cases hnav : env.navigateOut <;>
    simp_all [handleAnalyze, kvWrites]

/-- C2 witness: the fully-succeeding concrete run makes exactly the two
writes, same key, empty then parsed feedback, and finishes `Done`. -/
theorem claim_C2_witness :
    kvWrites (handleAnalyze cInput cEnvOk) =
      [("resume:" ++ "uuid-1",
        { id := "uuid-1", resumePath := "/files/resume.pdf", imagePath := "/files/resume.png"
          companyName := "Acme", jobTitle := "Engineer"
          jobDescription := "Build rockets", feedback := Json.str "" }),
       ("resume:" ++ "uuid-1",
        { id := "uuid-1", resumePath := "/files/resume.pdf", imagePath := "/files/resume.png"
          companyName := "Acme", jobTitle := "Engineer"
          jobDescription := "Build rockets", feedback := Json.composite "parsed feedback" })] ∧
    Json.composite "parsed feedback" ≠ Json.str "" ∧
    (handleAnalyze cInput cEnvOk).outcome = RunOutcome.done "uuid-1" :=
  claim_C2_double_write cInput cEnvOk { path := "/files/resume.pdf" }
    { path := "/files/resume.png" } cConvOk
    { name := "resume.png", type := "image/png", blobId := 1 }
    { content := AIContent.str "raw feedback" } (Json.composite "parsed feedback")
    rfl rfl rfl rfl rfl rfl rfl (by decide) rfl

/-- C3 counterexample: the claim requires the identifier to be generated
before any network call; in the fully-succeeding concrete run the
identifier generation is preceded by an `fs.upload` port call (the event
trace before the single `genUUID` event already contains `callUpload`). -/
theorem claim_C3_counterexample :
    genEvents (handleAnalyze cInput cEnvOk) = ["uuid-1"] ∧
    ((handleAnalyze cInput cEnvOk).events.takeWhile
      (fun e => !isGenEv e)).contains Ev.callUpload = true := by
  decide

/-- C3 (amended): in every run that reaches the data-preparation stage,
the identifier is generated exactly once — after the two blob uploads and
before any Key-Value write, not before the uploads — and that identifier
is reused as the Key-Value key suffix (`resume:<id>`) of every write, as
the `Done` payload, and as the navigation handle (`/resume/<id>`). -/
theorem claim_C3_amended_identifier (inp : RunInput) (env : RunEnv) (f1 f2 : FileItem)
    (conv : PdfConversionResult) (imgf : ImageFile)
    (h1 : env.upload1 = PCall.ret f1) (h2 : env.convertOut = Except.ok conv)
    (h3 : conv.file = some imgf) (h4 : env.upload2 = PCall.ret f2) :
    genEvents (handleAnalyze inp env) = [env.uuid] ∧
    ((handleAnalyze inp env).events.takeWhile (fun e => !isGenEv e)).filterMap portKind
      = ["fs.upload", "fs.upload"] ∧
    (∀ p ∈ kvWrites (handleAnalyze inp env), p.1 = "resume:" ++ env.uuid) ∧
    (∀ u, (handleAnalyze inp env).outcome = RunOutcome.done u → u = env.uuid) ∧
    (∀ p, Ev.navigate p ∈ (handleAnalyze inp env).events → p = "/resume/" ++ env.uuid) := by
  cases hk1 : env.kvSet1 <;> cases hai : env.aiFeedback <;>
    cases hp : env.parseOut <;> cases hk2 : env.kvSet2 <;>
    cases hnav : env.navigateOut <;>
    refine ⟨?_, ?_, ?_, ?_, ?_⟩ <;>
    simp_all [handleAnalyze, genEvents, kvWrites, portKind, isGenEv]

/-- C3 witness: in the concrete fully-succeeding run the identifier is
generated exactly once, and both uploads (and no other port call) precede
it. -/
theorem claim_C3_witness :
    genEvents (handleAnalyze cInput cEnvOk) = ["uuid-1"] ∧
    ((handleAnalyze cInput cEnvOk).events.takeWhile
      (fun e => !isGenEv e)).filterMap portKind = ["fs.upload", "fs.upload"] :=
  ⟨(claim_C3_amended_identifier cInput cEnvOk { path := "/files/resume.pdf" }
      { path := "/files/resume.png" } cConvOk
      { name := "resume.png", type := "image/png", blobId := 1 } rfl rfl rfl rfl).1,
   (claim_C3_amended_identifier cInput cEnvOk { path := "/files/resume.pdf" }
      { path := "/files/resume.png" } cConvOk
      { name := "resume.png", type := "image/png", blobId := 1 } rfl rfl rfl rfl).2.1⟩

/-- C4 counterexample: the claim requires every failure path — including
exceeding the bounded wait on the encode step — to return an error
RenderedImage; on a valid document whose `toBlob` callback never fires,
`convertPdfToImage`'s returned promise instead rejects (the rejection of
the inner promise escapes the outer try of the async function). -/
theorem claim_C4_counterexample :
    (convertPdfToImage cFile cEnvHang st0).1 =
      ConvOut.thrown "Timed out while creating image blob" := by
  decide

/-- C4 (amended): every failure path of `convertPdfToImage` other than
the bounded-wait expiry returns a RenderedImage with a non-empty error
string and a null file payload (successes carry a file and no error);
the only rejection that can cross the boundary is the encode-step
timeout, with message "Timed out while creating image blob". -/
theorem claim_C4_amended_failure_semantics (f : SrcFile) (env : ConvEnv) (st : ConvState)
    (hwf : wfCache st.cache = true) :
    (∀ m, (convertPdfToImage f env st).1 = ConvOut.thrown m →
        m = "Timed out while creating image blob") ∧
    (∀ r, (convertPdfToImage f env st).1 = ConvOut.ret r →
        (r.file.isSome = true ∧ r.error = none) ∨
        (r.file = none ∧ ∃ e, r.error = some e ∧ e ≠ "")) := by
  constructor
  · intro m hm
    unfold convertPdfToImage encodeStep tryWithDataURL at hm
    dsimp only at hm
    repeat' split at hm
    all_goals simp_all
  · intro r hr
    unfold convertPdfToImage encodeStep tryWithDataURL at hr
    dsimp only at hr
    repeat' split at hr
    all_goals try simp only [ConvOut.thrown.injEq, ConvOut.ret.injEq] at hr
    all_goals try exact ConvOut.noConfusion hr
    all_goals try subst hr
    all_goals try exact Or.inl ⟨rfl, rfl⟩
    all_goals try exact Or.inr ⟨rfl, _, rfl, by decide⟩
    all_goals try exact Or.inr ⟨rfl, _, rfl, append_ne_empty_left _ _ (by decide)⟩
    all_goals rename_i heq
    all_goals {
      have hmem := cache_lookup_mem _ _ _ heq
      simp only [wfCache, List.all_eq_true] at hwf
      have hx := hwf _ hmem
      simp only [Bool.and_eq_true, beq_iff_eq] at hx
      exact Or.inl hx }

/-- C4 witness: a non-PDF document on an empty cache produces a returned
error RenderedImage of the required shape. -/
theorem claim_C4_witness :
    ((errResult "File is not a PDF").file.isSome = true ∧
      (errResult "File is not a PDF").error = none) ∨
    ((errResult "File is not a PDF").file = none ∧
      ∃ e, (errResult "File is not a PDF").error = some e ∧ e ≠ "") :=
  (claim_C4_amended_failure_semantics cFileTxt cEnvHang st0 (by decide)).2
    (errResult "File is not a PDF") (by decide)

/-- C5: if a conversion succeeds, a second call with a document of the
same fingerprint (and passing the input guards) returns exactly the same
result from the cache — whatever the second call's environment would have
done — with the shared state unchanged and without invoking the engine
or the render/encode pipeline. -/
theorem claim_C5_convert_idempotent (f f2 : SrcFile) (env env2 : ConvEnv) (st : ConvState)
    (r : PdfConversionResult)
    (hsz : f2.size ≠ 0) (hty : strIncludes f2.type "pdf" = true)
    (hkey : cacheKey f2 = cacheKey f)
    (hret : (convertPdfToImage f env st).1 = ConvOut.ret r)
    (hsucc : r.file.isSome = true) :
    convertPdfToImage f2 env2 (convertPdfToImage f env st).2.1 =
      (ConvOut.ret r, (convertPdfToImage f env st).2.1, noConvTrace) := by
  have hc := convert_success_cached f env st r hret hsucc
  have hc2 : List.lookup (cacheKey f2) ((convertPdfToImage f env st).2.1).cache = some r := by
    rw [hkey]; exact hc
  generalize hst : (convertPdfToImage f env st).2.1 = st1 at hc2 ⊢
  unfold convertPdfToImage
  simp [hsz, hty, hc2]

/-- C5 witness: after a successful conversion of `resume.pdf`, a second
call with the same fingerprint returns the identical result with no state
change and no engine invocation, even under an environment whose encode
step would hang. -/
theorem claim_C5_witness :
    convertPdfToImage cFile cEnvHang (convertPdfToImage cFile cEnvPrimaryOk st0).2.1 =
      (ConvOut.ret (successResult cFile 3),
        (convertPdfToImage cFile cEnvPrimaryOk st0).2.1, noConvTrace) :=
  claim_C5_convert_idempotent cFile cFile cEnvPrimaryOk cEnvHang st0
    (successResult cFile 3) (by decide) (by decide) rfl (by decide) (by decide)

/-- C6: whenever the primary `toBlob` encode path fails (synchronous
throw, null blob, or File-construction failure), the `toDataURL` fallback
is attempted before anything is returned; and if the fallback succeeds,
the conversion returns a successful RenderedImage. -/
theorem claim_C6_fallback_path (f : SrcFile) (env : ConvEnv) (st : ConvState)
    (hsz : f.size ≠ 0) (hty : strIncludes f.type "pdf" = true)
    (hmiss : st.cache.lookup (cacheKey f) = none)
    (heng : st.engine.pdfjsLib = true)
    (hab : env.arrayBufferOut = Except.ok ())
    (hgd : env.getDocumentOut = Except.ok ())
    (hgp : env.getPageOut = Except.ok ())
    (hctx : env.hasContext = true)
    (hrd : env.renderOut = Except.ok ())
    (hfail : primaryEncodeFails env) :
    (convertPdfToImage f env st).2.2.fallbackTried = true ∧
    (∀ bid, env.dataUrlOut = Except.ok bid →
      ∃ r, (convertPdfToImage f env st).1 = ConvOut.ret r ∧
        r.file.isSome = true ∧ r.error = none) := by
  unfold convertPdfToImage encodeStep tryWithDataURL loadPdfJs
  rcases hfail with ⟨m, hm⟩ | hm | ⟨bid, m, hm, hf⟩ <;>
    simp [hsz, hty, hmiss, heng, hab, hgd, hgp, hctx, hrd, hm] <;>
    try simp [hf]
  all_goals intro bid2 hdu
  all_goals simp [hdu, successResult]

/-- C6 witness: with a primary path that yields a null blob and a
fallback that succeeds, the fallback runs and the conversion returns a
successful RenderedImage. -/
theorem claim_C6_witness :
    (convertPdfToImage cFile cEnvFallback stLoaded).2.2.fallbackTried = true ∧
    ∃ r, (convertPdfToImage cFile cEnvFallback stLoaded).1 = ConvOut.ret r ∧
      r.file.isSome = true ∧ r.error = none :=
  ⟨(claim_C6_fallback_path cFile cEnvFallback stLoaded (by decide) (by decide)
      rfl rfl rfl rfl rfl rfl rfl (Or.inr (Or.inl rfl))).1,
   (claim_C6_fallback_path cFile cEnvFallback stLoaded (by decide) (by decide)
      rfl rfl rfl rfl rfl rfl rfl (Or.inr (Or.inl rfl))).2 9 rfl⟩

/-- C7 counterexample: the claim requires an initialization failure not
to be cached (a later call re-attempting initialization); in the code the
failed `loadPromise` is never reset, so after a failed first load a
second call — whose fresh import would succeed — still receives the
cached rejection and starts no new import. -/
theorem claim_C7_counterexample :
    loadPdfJs engine0 (Except.error "load failed") =
      (Except.error "load failed",
        { pdfjsLib := false, loadPromise := some (Except.error "load failed") }, 1) ∧
    loadPdfJs { pdfjsLib := false, loadPromise := some (Except.error "load failed") }
        (Except.ok ()) =
      (Except.error "load failed",
        { pdfjsLib := false, loadPromise := some (Except.error "load failed") }, 0) :=
  ⟨rfl, rfl⟩

/-- C7 (amended): across any sequence of `loadPdfJs` calls from the fresh
module state, exactly one import is started and every caller receives the
first import's outcome (concurrent or later callers share the stored
promise, with no duplicate engine loads); an initialization failure
propagates to a `convertPdfToImage` caller as an error RenderedImage —
but the failure is cached, so later calls keep receiving it without a
re-attempt. -/
theorem claim_C7_amended_engine_init (o : Except String Unit)
    (os : List (Except String Unit))
    (f : SrcFile) (env : ConvEnv) (st : ConvState) (e : String)
    (hsz : f.size ≠ 0) (hty : strIncludes f.type "pdf" = true)
    (hmiss : st.cache.lookup (cacheKey f) = none)
    (heng : st.engine = settledState (Except.error e)) :
    (loadSeq engine0 (o :: os)).2.2 = 1 ∧
    (loadSeq engine0 (o :: os)).1 = (o :: os).map (fun _ => o) ∧
    (convertPdfToImage f env st).1 =
      ConvOut.ret (errResult ("Failed to convert PDF to image: " ++ e)) := by
  refine ⟨?_, ?_, ?_⟩
  · simp [loadSeq, loadPdfJs_first, loadSeq_settled]
  · simp [loadSeq, loadPdfJs_first, loadSeq_settled]
  · unfold convertPdfToImage
    have hl : (loadPdfJs st.engine env.importOut).1 = Except.error e := by
      rw [heng, loadPdfJs_settled]
    simp [hsz, hty, hmiss, hl]

/-- C7 witness: a failed first load followed by one further call yields
one import total with both callers receiving the failure, and a convert
call over the failed engine returns the corresponding error
RenderedImage. -/
theorem claim_C7_witness :
    (loadSeq engine0 [Except.error "init failed", Except.ok ()]).2.2 = 1 ∧
    (loadSeq engine0 [Except.error "init failed", Except.ok ()]).1 =
      [Except.error "init failed", Except.error "init failed"] ∧
    (convertPdfToImage cFile cEnvHang stFailedEngine).1 =
      ConvOut.ret (errResult ("Failed to convert PDF to image: " ++ "init failed")) :=
  claim_C7_amended_engine_init (Except.error "init failed") [Except.ok ()]
    cFile cEnvHang stFailedEngine "init failed" (by decide) (by decide) rfl rfl

/-- C8 counterexample: the claim requires stage completions arriving
after global-deadline expiry to be ignored; in the fully-succeeding
concrete run with the deadline expiring after 13 events (during the final
KV write, before the timer is cleared), the timeout handler does set the
failure state, yet the pipeline's final status update overwrites it: the
final status text is the success message, not the timeout error. -/
theorem claim_C8_counterexample :
    timerFires (handleAnalyze cInput cEnvOk) 13 = true ∧
    (firedTrace (handleAnalyze cInput cEnvOk) 13).contains
      (UiEv.statusSet timeoutMsg) = true ∧
    (uiFold (firedTrace (handleAnalyze cInput cEnvOk) 13)).statusText =
      "Analysis complete, redirecting..." ∧
    (uiFold (firedTrace (handleAnalyze cInput cEnvOk) 13)).statusText ≠ timeoutMsg := by
  decide

/-- C8 (amended): when the global deadline expires before the timer is
cleared, the handler marks the run failed — the state right after the
timer events is the timeout error text with the processing flag cleared —
but later stage completions are not ignored: the pipeline keeps running,
and the final status text equals the last status it emits after expiry. -/
theorem claim_C8_amended_timeout (r : RunResult) (k : Nat) (s : String)
    (hfire : timerFires r k = true)
    (hlast : lastStatus ((r.events.drop k).filterMap uiProj) = some s) :
    uiFold ((r.events.take k).filterMap uiProj ++
      [UiEv.statusSet timeoutMsg, UiEv.processingSet false]) =
      { statusText := timeoutMsg, isProcessing := false } ∧
    (uiFold (firedTrace r k)).statusText = s := by
  constructor
  · simp [uiFold, List.foldl_append, uiStep]
  · rw [firedTrace, if_pos hfire, uiFold_statusText, lastStatus_append,
      lastStatus_append]
    simp [hlast]

/-- C8 witness: in the concrete run with the deadline expiring after 13
events, the timer marks the run failed, and the status afterwards ends as
the success message emitted after expiry. -/
theorem claim_C8_witness :
    uiFold (((handleAnalyze cInput cEnvOk).events.take 13).filterMap uiProj ++
      [UiEv.statusSet timeoutMsg, UiEv.processingSet false]) =
      { statusText := timeoutMsg, isProcessing := false } ∧
    (uiFold (firedTrace (handleAnalyze cInput cEnvOk) 13)).statusText =
      "Analysis complete, redirecting..." :=
  claim_C8_amended_timeout (handleAnalyze cInput cEnvOk) 13
    "Analysis complete, redirecting..." (by decide) (by decide)

/-- C9: every ServiceResult produced by any Puter backend adapter
operation carries exactly one of the success value (`data`) or the error
message (`error`) — for every availability state and every underlying
call outcome. -/
theorem claim_C9_serviceresult_xor :
    (∀ a o, oneBranch (authGetUser a o)) ∧
    (∀ a o, oneBranch (authSignIn a o)) ∧
    (∀ a o, oneBranch (authSignOut a o)) ∧
    (∀ a o, oneBranch (fsUpload a o)) ∧
    (∀ a o, oneBranch (fsRead a o)) ∧
    (∀ a o, oneBranch (fsWrite a o)) ∧
    (∀ a o, oneBranch (fsDelete a o)) ∧
    (∀ a o, oneBranch (fsList a o)) ∧
    (∀ a o, oneBranch (kvGet a o)) ∧
    (∀ a o, oneBranch (kvSet a o)) ∧
    (∀ a o, oneBranch (kvDelete a o)) ∧
    (∀ a o, oneBranch (kvList a o)) ∧
    (∀ a o, oneBranch (kvFlush a o)) ∧
    (∀ a o, oneBranch (aiChat a o)) ∧
    (∀ a o, oneBranch (uploadFileForAI a o)) ∧
    (∀ a fa u c, oneBranch (aiFeedback a fa u c)) ∧
    (∀ a o, oneBranch (aiImg2txt a o)) := by
  refine ⟨?_, ?_, ?_, ?_, ?_, ?_, ?_, ?_, ?_, ?_, ?_, ?_, ?_, ?_, ?_, ?_, ?_⟩ <;>
    intros <;>
    simp only [authGetUser, authSignIn, authSignOut, fsUpload, fsRead, fsWrite,
      fsDelete, fsList, kvGet, kvSet, kvDelete, kvList, kvFlush, aiChat,
      uploadFileForAI, aiFeedback, aiImg2txt, oneBranch, unavailable] <;>
    repeat' split
  all_goals simp

/-- C10: on a cache miss, every successful conversion produces a file of
MIME type image/png whose name is the source name with a trailing ".pdf"
(matched case-insensitively) replaced by ".png" — on the primary and the
fallback encode path alike. -/
theorem claim_C10_png_naming (f : SrcFile) (env : ConvEnv) (st : ConvState)
    (r : PdfConversionResult) (imgf : ImageFile)
    (hmiss : st.cache.lookup (cacheKey f) = none)
    (hr : (convertPdfToImage f env st).1 = ConvOut.ret r)
    (himg : r.file = some imgf) :
    imgf.type = "image/png" ∧
    imgf.name =
      (if endsWithPdfCI f.name then
        String.mk (f.name.toList.take (f.name.toList.length - 4))
      else f.name) ++ ".png" := by
  unfold convertPdfToImage encodeStep tryWithDataURL at hr
  dsimp only at hr
  repeat' split at hr
  all_goals try exact ConvOut.noConfusion hr
  all_goals try simp only [ConvOut.ret.injEq] at hr
  all_goals try subst hr
  all_goals simp_all [errResult, successResult, pngName, stripPdfExt]
  all_goals subst himg
  all_goals exact ⟨rfl, rfl⟩

/-- C10 witness: converting `resume.pdf` through the fallback path yields
a PNG file named `resume.png`. -/
theorem claim_C10_witness :
    ({ name := "resume.png", type := "image/png", blobId := 9 } : ImageFile).type
      = "image/png" ∧
    ({ name := "resume.png", type := "image/png", blobId := 9 } : ImageFile).name =
      (if endsWithPdfCI cFile.name then
        String.mk (cFile.name.toList.take (cFile.name.toList.length - 4))
      else cFile.name) ++ ".png" :=
  claim_C10_png_naming cFile cEnvFallback stLoaded (successResult cFile 9)
    { name := "resume.png", type := "image/png", blobId := 9 }
    rfl (by decide) (by decide)


end ResumeATS
